import Mathlib

/-!
Shallow embedding of the personsvc transactional-outbox service
(src/personsvc/src/db/person.rs, src/personsvc/src/db/outbox.rs,
src/personsvc/src/services/person_service.rs,
src/personsvc/src/handlers/person_handler.rs).

The relational store is modelled as an explicit `Db` value (a table of
Person rows and a table of Outbox rows).  A transaction is a working copy
of the `Db`: committing returns the working copy, rolling back returns the
original.  Database-level failures (pool checkout, BEGIN, statement
execution, COMMIT, ROLLBACK) are injected through an `Env` record of
success flags, and `NOW()` / `Uuid::new_v4()` are drawn from `Env` as
well, so every run of an operation is a pure function of `(Env, Db, args)`.
-/

/-- Uuid values are modelled as naturals (only identity matters). -/
abbrev Uuid := Nat

/-- `NaiveDateTime` timestamps are modelled as naturals (only ordering
and equality matter). -/
abbrev Timestamp := Nat

/-- `NewPersonRecord` from src/personsvc/src/db/person.rs. -/
structure NewPersonRecord where
  id : Uuid
  first_name : String
  middle_name : Option String
  last_name : String
  suffix : Option String
  created_date_time : Timestamp
deriving DecidableEq

/-- `PersonRecord` from src/personsvc/src/db/person.rs. -/
structure PersonRecord where
  id : Uuid
  first_name : String
  middle_name : Option String
  last_name : String
  suffix : Option String
  created_date_time : Timestamp
  updated_date_time : Option Timestamp
deriving DecidableEq

/-- A stored row of the `"Outbox"` table.  `payload` is an `Option`
because `Outbox::insert` binds `serde_json::to_string(payload).ok()`, an
`Option<String>`, as the Payload parameter, so a NULL payload can be
written. -/
structure OutboxMessage where
  id : Uuid
  topic : String
  event_name : String
  payload : Option String
  status : String
  created_date_time : Timestamp
  published_date_time : Option Timestamp
  error_count : Nat
  error_message : Option String
deriving DecidableEq

/-- The relational store: the `"UserName"` table and the `"Outbox"` table,
each as a list of rows in table order. -/
structure Db where
  persons : List PersonRecord
  outbox : List OutboxMessage
deriving DecidableEq

/-- Error taxonomy of the service (spec section 7): pool checkout
failures, BEGIN/COMMIT/ROLLBACK failures, and statement-level storage
failures. -/
inductive SvcError where
  | connectionError
  | transactionError
  | storageError (msg : String)
deriving DecidableEq

/-- Fault-injection environment for one operation: which database round
trips succeed, the server clock `NOW()`, and the uuid minted by
`Uuid::new_v4()` inside `Outbox::insert`. -/
structure Env where
  poolOk : Bool
  beginOk : Bool
  entityOk : Bool
  outboxOk : Bool
  commitOk : Bool
  rollbackOk : Bool
  now : Timestamp
  freshEventId : Uuid
deriving DecidableEq

/-- Models the `serde::Serialize` bound of `Outbox::insert<T: Serialize>`:
`toJsonString` is `serde_json::to_string`, with `none` standing for the
`Err` case (serde serializers are fallible). -/
class RustSerialize (α : Type) where
  toJsonString : α → Option String

/-- JSON rendering of an optional string field (NULL or a quoted value). -/
def jsonOptString : Option String → String
  | none => "null"
  | some s => "\"" ++ s ++ "\""

/-- JSON rendering of an optional timestamp field. -/
def jsonOptTimestamp : Option Timestamp → String
  | none => "null"
  | some t => toString t

/-- serde_json rendering of a `PersonRecord` (struct fields in
declaration order), modelling the payload text written by the service. -/
def personRecordToJson (p : PersonRecord) : String :=
  "\x7b\"id\":" ++ toString p.id ++
  ",\"first_name\":\"" ++ p.first_name ++ "\"" ++
  ",\"middle_name\":" ++ jsonOptString p.middle_name ++
  ",\"last_name\":\"" ++ p.last_name ++ "\"" ++
  ",\"suffix\":" ++ jsonOptString p.suffix ++
  ",\"created_date_time\":" ++ toString p.created_date_time ++
  ",\"updated_date_time\":" ++ jsonOptTimestamp p.updated_date_time ++ "\x7d"

instance : RustSerialize PersonRecord where
  toJsonString p := some (personRecordToJson p)

/-- A `Uuid` serializes to its textual form; never fails. -/
instance : RustSerialize Uuid where
  toJsonString id := some ("\"" ++ toString id ++ "\"")

/-- A payload type whose serde serialization fails: stands for any
`T: Serialize` for which `serde_json::to_string` returns `Err` (for
example a map with non-string keys). -/
inductive FailingPayload where
  | mk
deriving DecidableEq

instance : RustSerialize FailingPayload where
  toJsonString _ := none

/-! ## Entity store: `PersonDb` (src/personsvc/src/db/person.rs) -/

/-- `SELECT * FROM "UserName" WHERE Id = $1` via `query_opt`. -/
def PersonDb.get_by_id (db : Db) (id : Uuid) : Option PersonRecord :=
  db.persons.find? (fun p => p.id == id)

/-- The `ORDER BY CreatedDateTime DESC` ordering of `PersonDb::list`:
row `a` precedes row `b` when `a`'s creation time is at least `b`'s. -/
def createdDesc (a b : PersonRecord) : Prop :=
  b.created_date_time ≤ a.created_date_time

instance : DecidableRel createdDesc :=
  fun a b => Nat.decLe b.created_date_time a.created_date_time

instance : IsTotal PersonRecord createdDesc :=
  ⟨fun a b => Nat.le_total b.created_date_time a.created_date_time⟩

instance : IsTrans PersonRecord createdDesc :=
  ⟨fun _ _ _ hab hbc => Nat.le_trans hbc hab⟩

/-- `SELECT * FROM "UserName" ORDER BY CreatedDateTime DESC OFFSET $1
LIMIT $2`.  The sort is a deterministic (stable) realisation of the
`ORDER BY` clause. -/
def PersonDb.list (db : Db) (off lim : Nat) : List PersonRecord :=
  (((List.insertionSort createdDesc db.persons).drop off).take lim)

/-- `INSERT INTO "UserName" (Id, FirstName, MiddleName, LastName, Suffix)
VALUES ($1,$2,$3,$4,$5) RETURNING *`, run inside the caller's
transaction.  `CreatedDateTime` is server-assigned (the insert does not
pass the caller's `created_date_time`).  Fails on connectivity loss or on
a duplicate-key constraint violation. -/
def PersonDb.create (env : Env) (tx : Db) (user : NewPersonRecord) :
    Except SvcError (PersonRecord × Db) :=
  if env.entityOk = false then .error (.storageError "connectivity")
  else if tx.persons.any (fun p => p.id == user.id) then
    .error (.storageError "duplicate key value violates unique constraint")
  else
    let row : PersonRecord :=
      { id := user.id, first_name := user.first_name,
        middle_name := user.middle_name, last_name := user.last_name,
        suffix := user.suffix, created_date_time := env.now,
        updated_date_time := none }
    .ok (row, { tx with persons := tx.persons ++ [row] })

/-- `UPDATE "UserName" SET FirstName = $1, MiddleName = $2, LastName = $3,
Suffix = $4, UpdatedDateTime = NOW() WHERE Id = $5 RETURNING *` via
`query_one`: zero affected rows is a storage error. -/
def PersonDb.update (env : Env) (tx : Db) (user : PersonRecord) :
    Except SvcError (PersonRecord × Db) :=
  if env.entityOk = false then .error (.storageError "connectivity")
  else
    match tx.persons.find? (fun p => p.id == user.id) with
    | none => .error (.storageError "query returned an unexpected number of rows")
    | some existing =>
      let row : PersonRecord :=
        { existing with
          first_name := user.first_name,
          middle_name := user.middle_name, last_name := user.last_name,
          suffix := user.suffix, updated_date_time := some env.now }
      .ok (row, { tx with
                  persons := tx.persons.map
                    (fun p => if p.id == user.id then row else p) })

/-- `DELETE FROM "UserName" WHERE Id = $1` via `execute`; the result is
`rows_affected > 0` (absent rows are a normal `false`, not an error). -/
def PersonDb.delete (env : Env) (tx : Db) (id : Uuid) :
    Except SvcError (Bool × Db) :=
  if env.entityOk = false then .error (.storageError "connectivity")
  else
    .ok (tx.persons.any (fun p => p.id == id),
         { tx with persons := tx.persons.filter (fun p => !(p.id == id)) })

/-! ## Outbox store (src/personsvc/src/db/outbox.rs) -/

/-- `Outbox::insert`: binds `payload_str = serde_json::to_string(payload).ok()`
(note the `.ok()`: a serialization failure becomes `None`, it does not
abort the call), mints a fresh event id, and executes
`INSERT INTO "Outbox" (Id, Topic, EventName, Payload, "Status",
CreatedDateTime) VALUES ($1,$2,$3,$4,$5,NOW())` inside the caller's
transaction with `"Status" = 'Unpublished'`.  The call fails only when
the INSERT itself fails. -/
def Outbox.insert {T : Type} [RustSerialize T] (env : Env) (tx : Db)
    (topic event_name : String) (payload : T) : Except SvcError Db :=
  let payload_str : Option String := RustSerialize.toJsonString payload
  let id : Uuid := env.freshEventId
  let status : String := "Unpublished"
  if env.outboxOk = false then .error (.storageError "outbox insert failed")
  else
    .ok { tx with outbox := tx.outbox ++
          [{ id := id, topic := topic, event_name := event_name,
             payload := payload_str, status := status,
             created_date_time := env.now, published_date_time := none,
             error_count := 0, error_message := none }] }

/-- `Outbox::get_pending_messages`: `SELECT * FROM "Outbox" WHERE
PublishedDateTime IS NULL AND ErrorCount < 10 LIMIT 50` (no ORDER BY:
table order, capped at 50 rows). -/
def Outbox.get_pending_messages (db : Db) : List OutboxMessage :=
  (db.outbox.filter
    (fun e => decide (e.published_date_time = none ∧ e.error_count < 10))).take 50

/-- `Outbox::clear_event` (mark-published): `UPDATE "Outbox" SET
"Status" = 'Published', ErrorCount = 0, PublishedDateTime = NOW()
WHERE Id = $1`.  Note `PublishedDateTime` is overwritten with the current
`NOW()` on every call. -/
def Outbox.clear_event (env : Env) (db : Db) (id : Uuid) : Db :=
  { db with outbox := db.outbox.map (fun e =>
      if e.id = id then
        { e with
          status := "Published", error_count := 0,
          published_date_time := some env.now }
      else e) }

/-- `Outbox::errored_event` (mark-errored): `UPDATE "Outbox" SET
"Status" = 'Error', ErrorCount = ErrorCount + 1 WHERE Id = $1`. -/
def Outbox.errored_event (db : Db) (id : Uuid) : Db :=
  { db with outbox := db.outbox.map (fun e =>
      if e.id = id then
        { e with
          status := "Error", error_count := e.error_count + 1 }
      else e) }

/-! ## Transactional mutation coordinator: `PersonService`
(src/personsvc/src/services/person_service.rs) -/

instance {ε α : Type} [DecidableEq ε] [DecidableEq α] :
    DecidableEq (Except ε α) := fun x y =>
  match x, y with
  | .error a, .error b =>
    if h : a = b then isTrue (by rw [h])
    else isFalse (fun hh => by cases hh; exact h rfl)
  | .error _, .ok _ => isFalse (fun hh => by cases hh)
  | .ok _, .error _ => isFalse (fun hh => by cases hh)
  | .ok a, .ok b =>
    if h : a = b then isTrue (by rw [h])
    else isFalse (fun hh => by cases hh; exact h rfl)

/-- Outcome of one coordinator invocation: what the caller receives and
the store state after the operation (the transaction's working copy when
committed, the original state when rolled back or never started). -/
structure OpOutcome (α : Type) where
  result : Except SvcError α
  db : Db
deriving DecidableEq

/-- The rollback discipline of the coordinator's error arms: attempt
`tx.rollback()`; if the rollback itself fails, return the rollback error
instead of the original one.  Either way nothing of the transaction is
persisted. -/
def rollbackAndFail {α : Type} (env : Env) (db : Db) (e : SvcError) :
    OpOutcome α :=
  if env.rollbackOk = false then ⟨.error .transactionError, db⟩
  else ⟨.error e, db⟩

/-- `PersonService::get_user_by_id`: pool checkout, then a read outside
any transaction. -/
def PersonService.get_user_by_id (env : Env) (db : Db) (id : Uuid) :
    Except SvcError (Option PersonRecord) :=
  if env.poolOk = false then .error .connectionError
  else if env.entityOk = false then .error (.storageError "connectivity")
  else .ok (PersonDb.get_by_id db id)

/-- `PersonService::list_users`: pool checkout, then a read outside any
transaction. -/
def PersonService.list_users (env : Env) (db : Db) (off lim : Nat) :
    Except SvcError (List PersonRecord) :=
  if env.poolOk = false then .error .connectionError
  else if env.entityOk = false then .error (.storageError "connectivity")
  else .ok (PersonDb.list db off lim)

/-- `PersonService::create_user`: pool checkout, BEGIN, entity insert,
`Outbox::insert(tx, "user_events", "user_added", &created_user)`, COMMIT.
Any failure after BEGIN rolls back and propagates; nothing is persisted
unless COMMIT succeeds. -/
def PersonService.create_user (env : Env) (db : Db)
    (user : NewPersonRecord) : OpOutcome PersonRecord :=
  if env.poolOk = false then ⟨.error .connectionError, db⟩
  else if env.beginOk = false then ⟨.error .transactionError, db⟩
  else
    match PersonDb.create env db user with
    | .error e => rollbackAndFail env db e
    | .ok (created_user, tx1) =>
      match Outbox.insert env tx1 "user_events" "user_added" created_user with
      | .error e => rollbackAndFail env db e
      | .ok tx2 =>
        if env.commitOk = false then ⟨.error .transactionError, db⟩
        else ⟨.ok created_user, tx2⟩

/-- `PersonService::update_user`: pool checkout, BEGIN, entity update,
`Outbox::insert(tx, "user_events", "user_updated", &updated_user)`,
COMMIT, with the same rollback discipline as create. -/
def PersonService.update_user (env : Env) (db : Db)
    (user : PersonRecord) : OpOutcome PersonRecord :=
  if env.poolOk = false then ⟨.error .connectionError, db⟩
  else if env.beginOk = false then ⟨.error .transactionError, db⟩
  else
    match PersonDb.update env db user with
    | .error e => rollbackAndFail env db e
    | .ok (updated_user, tx1) =>
      match Outbox.insert env tx1 "user_events" "user_updated" updated_user with
      | .error e => rollbackAndFail env db e
      | .ok tx2 =>
        if env.commitOk = false then ⟨.error .transactionError, db⟩
        else ⟨.ok updated_user, tx2⟩

/-- `PersonService::delete_user`: pool checkout, BEGIN, entity delete;
only `if deleted` is `Outbox::insert(tx, "user_events", "user_deleted",
&id)` attempted; then COMMIT either way. -/
def PersonService.delete_user (env : Env) (db : Db) (id : Uuid) :
    OpOutcome Bool :=
  if env.poolOk = false then ⟨.error .connectionError, db⟩
  else if env.beginOk = false then ⟨.error .transactionError, db⟩
  else
    match PersonDb.delete env db id with
    | .error e => rollbackAndFail env db e
    | .ok (deleted, tx1) =>
      if deleted then
        match Outbox.insert env tx1 "user_events" "user_deleted" id with
        | .error e => rollbackAndFail env db e
        | .ok tx2 =>
          if env.commitOk = false then ⟨.error .transactionError, db⟩
          else ⟨.ok deleted, tx2⟩
      else
        if env.commitOk = false then ⟨.error .transactionError, db⟩
        else ⟨.ok deleted, tx1⟩

/-! ## HTTP handler layer (src/personsvc/src/handlers/person_handler.rs) -/

/-- The deserialized body of a create/update request. -/
structure CreateUserRequest where
  first_name : String
  middle_name : Option String
  last_name : String
  suffix : Option String
deriving DecidableEq

/-- The response statuses the handlers produce. -/
inductive HttpStatus where
  | ok
  | created
  | notFound
  | internalServerError
deriving DecidableEq

/-- The `new_person_record` built at the top of the create handler:
`id = Uuid::new_v4()` is minted here, once per handler invocation, and
`created_date_time = now`. -/
def buildNewPersonRecord (freshId : Uuid) (now : Timestamp)
    (req : CreateUserRequest) : NewPersonRecord :=
  { id := freshId, first_name := req.first_name,
    middle_name := req.middle_name, last_name := req.last_name,
    suffix := req.suffix, created_date_time := now }

/-- One run of the create handler: its response status, the store
afterwards, and (as a ghost trace) the records passed to
`PersonService::create_user`, in call order. -/
structure CreateHandlerRun where
  status : HttpStatus
  db : Db
  attempts : List NewPersonRecord
deriving DecidableEq

/-- `person_handler::create_user`: builds `new_person_record` once, then
calls `service.create_user` TWICE with that same record (the first
`match`'s error arm lacks a `return`, so its outcome is dropped and the
second call always runs); the response is shaped from the second call
only. -/
def createUserHandler (env1 env2 : Env) (freshId : Uuid) (now : Timestamp)
    (db : Db) (req : CreateUserRequest) : CreateHandlerRun :=
  let new_person_record := buildNewPersonRecord freshId now req
  let r1 := PersonService.create_user env1 db new_person_record
  let r2 := PersonService.create_user env2 r1.db new_person_record
  match r2.result with
  | .ok _ => ⟨HttpStatus.created, r2.db, [new_person_record, new_person_record]⟩
  | .error _ =>
    ⟨HttpStatus.internalServerError, r2.db, [new_person_record, new_person_record]⟩

/-- `person_handler::delete_user`: 200 on `Ok(true)`, 404 on `Ok(false)`,
500 on error. -/
def deleteUserHandler (env : Env) (db : Db) (id : Uuid) :
    HttpStatus × Db :=
  match PersonService.delete_user env db id with
  | ⟨.ok true, db2⟩ => (HttpStatus.ok, db2)
  | ⟨.ok false, db2⟩ => (HttpStatus.notFound, db2)
  | ⟨.error _, db2⟩ => (HttpStatus.internalServerError, db2)

/-! ## Concrete fixtures used by witnesses and counterexamples -/

/-- An environment in which every database round trip succeeds. -/
def envAllOk : Env :=
  { poolOk := true, beginOk := true, entityOk := true, outboxOk := true,
    commitOk := true, rollbackOk := true, now := 5, freshEventId := 101 }

/-- An environment in which only the outbox INSERT fails. -/
def envOutboxFail : Env := { envAllOk with outboxOk := false }

/-- A concrete stored person row. -/
def personAda : PersonRecord :=
  { id := 1, first_name := "Ada", middle_name := none,
    last_name := "Lovelace", suffix := none, created_date_time := 3,
    updated_date_time := none }

/-- A concrete new person to insert. -/
def newPersonAda : NewPersonRecord :=
  { id := 1, first_name := "Ada", middle_name := none,
    last_name := "Lovelace", suffix := none, created_date_time := 3 }

/-- The empty store. -/
def dbEmpty : Db := { persons := [], outbox := [] }

/-- A store holding exactly `personAda` and no outbox rows. -/
def dbAda : Db := { persons := [personAda], outbox := [] }

/-- A concrete unpublished outbox event with id 7. -/
def evUnpublished : OutboxMessage :=
  { id := 7, topic := "user_events", event_name := "user_added",
    payload := some "x", status := "Unpublished", created_date_time := 1,
    published_date_time := none, error_count := 0, error_message := none }

/-- A store holding only `evUnpublished`. -/
def dbOneEvent : Db := { persons := [], outbox := [evUnpublished] }

/-- All round trips succeed, server clock reads 1. -/
def envT1 : Env := { envAllOk with now := 1 }

/-- All round trips succeed, server clock reads 2. -/
def envT2 : Env := { envAllOk with now := 2 }

/-- A second concrete person row, created later than `personAda`. -/
def personGrace : PersonRecord :=
  { id := 2, first_name := "Grace", middle_name := none,
    last_name := "Hopper", suffix := none, created_date_time := 9,
    updated_date_time := none }

/-- A store holding `personAda` and `personGrace`. -/
def dbTwo : Db := { persons := [personAda, personGrace], outbox := [] }

/-- A concrete create request body. -/
def reqAda : CreateUserRequest :=
  { first_name := "Ada", middle_name := none, last_name := "Lovelace",
    suffix := none }

/-! ## C1 -/

/-- C1: for every mutating operation (create, update, delete), if the
outbox insert fails after the entity write succeeded, the coordinator
rolls back the transaction: the caller receives an error and the store
afterwards is exactly the pre-operation store, so the entity mutation is
not persisted. -/
theorem outbox_failure_rolls_back_mutation (env : Env) (db : Db)
    (hp : env.poolOk = true) (hb : env.beginOk = true)
    (he : env.entityOk = true) (ho : env.outboxOk = false) :
    (∀ user : NewPersonRecord, (∀ p ∈ db.persons, p.id ≠ user.id) →
      (∃ e, (PersonService.create_user env db user).result = .error e) ∧
      (PersonService.create_user env db user).db = db) ∧
    (∀ user : PersonRecord, (∃ p ∈ db.persons, p.id = user.id) →
      (∃ e, (PersonService.update_user env db user).result = .error e) ∧
      (PersonService.update_user env db user).db = db) ∧
    (∀ id : Uuid, (∃ p ∈ db.persons, p.id = id) →
      (∃ e, (PersonService.delete_user env db id).result = .error e) ∧
      (PersonService.delete_user env db id).db = db) := by
  refine ⟨?_, ?_, ?_⟩
  · intro user hfresh
    have hany : (db.persons.any fun p => p.id == user.id) = false := by
      rw [List.any_eq_false]
      intro p hmem
      simpa using hfresh p hmem
    cases hr : env.rollbackOk <;>
      simp [PersonService.create_user, PersonDb.create, Outbox.insert,
        rollbackAndFail, hp, hb, he, ho, hany, hr]
  · intro user ⟨p, hmem, hid⟩
    have hsome : (db.persons.find? fun q => q.id == user.id).isSome := by
      rw [List.find?_isSome]
      exact ⟨p, hmem, by simpa using hid⟩
    obtain ⟨existing, hfind⟩ := Option.isSome_iff_exists.mp hsome
    cases hr : env.rollbackOk <;>
      simp [PersonService.update_user, PersonDb.update, Outbox.insert,
        rollbackAndFail, hp, hb, he, ho, hfind, hr]
  · intro id ⟨p, hmem, hid⟩
    have hany : (db.persons.any fun q => q.id == id) = true := by
      rw [List.any_eq_true]
      exact ⟨p, hmem, by simpa using hid⟩
    cases hr : env.rollbackOk <;>
      simp [PersonService.delete_user, PersonDb.delete, Outbox.insert,
        rollbackAndFail, hp, hb, he, ho, hany, hr]

/-- C1 witness: concrete instance — updating `personAda` in `dbAda` with
only the outbox INSERT failing leaves the store exactly `dbAda`. -/
theorem outbox_failure_rolls_back_mutation_witness :
    envOutboxFail.outboxOk = false ∧
    (PersonService.update_user envOutboxFail dbAda personAda).db = dbAda :=
  ⟨rfl,
    ((outbox_failure_rolls_back_mutation envOutboxFail dbAda rfl rfl rfl
        rfl).2.1 personAda ⟨personAda, by decide, rfl⟩).2⟩

/-! ## C2 -/

/-- C2 counterexample: a fully successful create enqueues an outbox event
whose `event_name` is `"user_added"`, not `"created"` as claimed. -/
theorem create_event_name_counterexample :
    (PersonService.create_user envAllOk dbEmpty newPersonAda).result =
      .ok { id := 1, first_name := "Ada", middle_name := none,
            last_name := "Lovelace", suffix := none, created_date_time := 5,
            updated_date_time := none } ∧
    (PersonService.create_user envAllOk dbEmpty newPersonAda).db.outbox.map
      OutboxMessage.event_name = ["user_added"] ∧
    (PersonService.create_user envAllOk dbEmpty newPersonAda).db.outbox.map
      OutboxMessage.event_name ≠ ["created"] := by
  decide

/-- C2 (amended): every successful create, update, and row-removing
delete enqueues, in the same transaction, exactly one outbox event whose
`event_name` is `"user_added"`, `"user_updated"`, or `"user_deleted"`
respectively (not `created` / `updated` / `deleted`), with payload the
serialized post-mutation entity (for delete, the serialized identifier
alone). -/
theorem outbox_event_names_and_payloads (env : Env) (db : Db)
    (hp : env.poolOk = true) (hb : env.beginOk = true)
    (he : env.entityOk = true) (ho : env.outboxOk = true)
    (hc : env.commitOk = true) :
    (∀ user : NewPersonRecord, (∀ p ∈ db.persons, p.id ≠ user.id) →
      ∃ created,
        (PersonService.create_user env db user).result = .ok created ∧
        (PersonService.create_user env db user).db.outbox = db.outbox ++
          [{ id := env.freshEventId, topic := "user_events",
             event_name := "user_added",
             payload := some (personRecordToJson created),
             status := "Unpublished", created_date_time := env.now,
             published_date_time := none, error_count := 0,
             error_message := none }]) ∧
    (∀ user : PersonRecord, (∃ p ∈ db.persons, p.id = user.id) →
      ∃ updated,
        (PersonService.update_user env db user).result = .ok updated ∧
        (PersonService.update_user env db user).db.outbox = db.outbox ++
          [{ id := env.freshEventId, topic := "user_events",
             event_name := "user_updated",
             payload := some (personRecordToJson updated),
             status := "Unpublished", created_date_time := env.now,
             published_date_time := none, error_count := 0,
             error_message := none }]) ∧
    (∀ id : Uuid, (∃ p ∈ db.persons, p.id = id) →
      (PersonService.delete_user env db id).result = .ok true ∧
      (PersonService.delete_user env db id).db.outbox = db.outbox ++
        [{ id := env.freshEventId, topic := "user_events",
           event_name := "user_deleted",
           payload := some ("\"" ++ toString id ++ "\""),
           status := "Unpublished", created_date_time := env.now,
           published_date_time := none, error_count := 0,
           error_message := none }]) := by
  refine ⟨?_, ?_, ?_⟩
  · intro user hfresh
    have hany : (db.persons.any fun p => p.id == user.id) = false := by
      rw [List.any_eq_false]
      intro p hmem
      simpa using hfresh p hmem
    refine ⟨{ id := user.id, first_name := user.first_name,
              middle_name := user.middle_name, last_name := user.last_name,
              suffix := user.suffix, created_date_time := env.now,
              updated_date_time := none }, ?_⟩
    simp [PersonService.create_user, PersonDb.create, Outbox.insert,
      hp, hb, he, ho, hc, hany, RustSerialize.toJsonString]
  · intro user ⟨p, hmem, hid⟩
    have hsome : (db.persons.find? fun q => q.id == user.id).isSome := by
      rw [List.find?_isSome]
      exact ⟨p, hmem, by simpa using hid⟩
    obtain ⟨existing, hfind⟩ := Option.isSome_iff_exists.mp hsome
    refine ⟨{ existing with
              first_name := user.first_name,
              middle_name := user.middle_name, last_name := user.last_name,
              suffix := user.suffix,
              updated_date_time := some env.now }, ?_⟩
    simp [PersonService.update_user, PersonDb.update, Outbox.insert,
      hp, hb, he, ho, hc, hfind, RustSerialize.toJsonString]
  · intro id ⟨p, hmem, hid⟩
    have hany : (db.persons.any fun q => q.id == id) = true := by
      rw [List.any_eq_true]
      exact ⟨p, hmem, by simpa using hid⟩
    simp [PersonService.delete_user, PersonDb.delete, Outbox.insert,
      hp, hb, he, ho, hc, hany, RustSerialize.toJsonString]

/-- C2 witness: concrete instance — deleting `personAda` from `dbAda`
with everything healthy enqueues exactly the `"user_deleted"` event. -/
theorem outbox_event_names_and_payloads_witness :
    envAllOk.commitOk = true ∧
    (PersonService.delete_user envAllOk dbAda 1).result = .ok true ∧
    (PersonService.delete_user envAllOk dbAda 1).db.outbox =
      dbAda.outbox ++
        [{ id := 101, topic := "user_events", event_name := "user_deleted",
           payload := some "\"1\"", status := "Unpublished",
           created_date_time := 5, published_date_time := none,
           error_count := 0, error_message := none }] :=
  ⟨rfl,
    (outbox_event_names_and_payloads envAllOk dbAda rfl rfl rfl rfl
        rfl).2.2 1 ⟨personAda, by decide, rfl⟩⟩

/-! ## C3 -/

/-- C3: `get_pending_messages` returns only rows with
`PublishedDateTime IS NULL AND ErrorCount < 10`, at most 50 of them; an
unpublished event with `error_count = 9` is still returned (whenever the
table fits in the 50-row cap), and after one more `mark_errored` no event
with that id is returned any more. -/
theorem get_pending_filter_and_retry_ceiling (db : Db) :
    (Outbox.get_pending_messages db).length ≤ 50 ∧
    (∀ e ∈ Outbox.get_pending_messages db,
        e.published_date_time = none ∧ e.error_count < 10) ∧
    (∀ e ∈ db.outbox, e.published_date_time = none → e.error_count = 9 →
        db.outbox.length ≤ 50 → e ∈ Outbox.get_pending_messages db) ∧
    (∀ id : Uuid, (∀ e ∈ db.outbox, e.id = id → e.error_count = 9) →
        ∀ e ∈ Outbox.get_pending_messages (Outbox.errored_event db id),
          e.id ≠ id) := by
  refine ⟨?_, ?_, ?_, ?_⟩
  · exact List.length_take_le 50 _
  · intro e he
    have hf := (List.mem_filter.mp (List.mem_of_mem_take he)).2
    exact of_decide_eq_true hf
  · intro e he hpub herr hlen
    have hmemf : e ∈ db.outbox.filter
        (fun e => decide (e.published_date_time = none ∧ e.error_count < 10)) :=
      List.mem_filter.mpr ⟨he, by simp [hpub, herr]⟩
    have hflen : (db.outbox.filter
        (fun e => decide (e.published_date_time = none ∧ e.error_count < 10))).length ≤ 50 :=
      le_trans (List.length_filter_le _ _) hlen
    rw [Outbox.get_pending_messages, List.take_of_length_le hflen]
    exact hmemf
  · intro id hnine e he hid
    have hpred := (List.mem_filter.mp (List.mem_of_mem_take he)).2
    have hlt : e.error_count < 10 := (of_decide_eq_true hpred).2
    have hmem1 := (List.mem_filter.mp (List.mem_of_mem_take he)).1
    simp only [Outbox.errored_event, List.mem_map] at hmem1
    obtain ⟨e0, he0, heq⟩ := hmem1
    by_cases h0 : e0.id = id
    · rw [if_pos h0] at heq
      have hcount : e.error_count = e0.error_count + 1 := by
        rw [← heq]
      have h9 := hnine e0 he0 h0
      omega
    · rw [if_neg h0] at heq
      rw [← heq] at hid
      exact h0 hid

/-- C3 witness: a concrete unpublished event with `error_count = 9` and
id 7 is returned by `get_pending_messages`. -/
theorem get_pending_filter_and_retry_ceiling_witness :
    ({ id := 7, topic := "user_events", event_name := "user_added",
       payload := some "x", status := "Error", created_date_time := 1,
       published_date_time := none, error_count := 9,
       error_message := none } : OutboxMessage) ∈
      Outbox.get_pending_messages
        { persons := [],
          outbox := [{ id := 7, topic := "user_events",
                       event_name := "user_added", payload := some "x",
                       status := "Error", created_date_time := 1,
                       published_date_time := none, error_count := 9,
                       error_message := none }] } :=
  (get_pending_filter_and_retry_ceiling
      { persons := [],
        outbox := [{ id := 7, topic := "user_events",
                     event_name := "user_added", payload := some "x",
                     status := "Error", created_date_time := 1,
                     published_date_time := none, error_count := 9,
                     error_message := none }] }).2.2.1
    _ (by decide) rfl rfl (by decide)

/-! ## C4 -/

/-- C4 counterexample: `clear_event` executes
`PublishedDateTime = NOW()` unconditionally, so a second `mark_published`
at a later clock rewrites the timestamp set by the first call. -/
theorem mark_published_retimestamps_counterexample :
    (Outbox.clear_event envT1 dbOneEvent 7).outbox.map
      OutboxMessage.published_date_time = [some 1] ∧
    (Outbox.clear_event envT2 (Outbox.clear_event envT1 dbOneEvent 7)
        7).outbox.map OutboxMessage.published_date_time = [some 2] ∧
    (some 2 : Option Timestamp) ≠ some 1 := by
  decide

/-- C4 (amended): `mark_published` is idempotent only up to the
timestamp: a second call leaves `status = Published` (and
`error_count = 0`) but overwrites `published_at` with the second call's
`NOW()`; when the clock value is unchanged the second call is a strict
no-op. -/
theorem mark_published_second_call (env env' : Env) (db : Db)
    (id : Uuid) :
    (∀ e ∈ (Outbox.clear_event env (Outbox.clear_event env' db id)
        id).outbox,
      e.id = id → e.status = "Published" ∧ e.error_count = 0 ∧
        e.published_date_time = some env.now) ∧
    Outbox.clear_event env (Outbox.clear_event env db id) id =
      Outbox.clear_event env db id := by
  constructor
  · intro e he hid
    simp only [Outbox.clear_event, List.map_map, List.mem_map,
      Function.comp] at he
    obtain ⟨e0, he0, heq⟩ := he
    by_cases h0 : e0.id = id
    · simp only [if_pos h0] at heq
      subst heq
      simp
    · simp only [if_neg h0] at heq
      subst heq
      exact absurd hid h0
  · simp only [Outbox.clear_event, List.map_map]
    congr 1
    refine List.map_congr_left ?_
    intro e _
    cases e with
    | mk eid etopic ename epayload estatus ecreated epub ecount emsg =>
      by_cases h0 : eid = id
      · subst h0
        simp [Function.comp]
      · simp [Function.comp, h0]

/-- C4 witness: concrete instance — after two `clear_event` calls at
clocks 1 then 2, the row with id 7 reads `Published` with
`published_date_time = some 2`. -/
theorem mark_published_second_call_witness :
    ({ evUnpublished with
       status := "Published", error_count := 0,
       published_date_time := some 2 } : OutboxMessage).status =
        "Published" ∧
    ({ evUnpublished with
       status := "Published", error_count := 0,
       published_date_time := some 2 } : OutboxMessage).error_count = 0 ∧
    ({ evUnpublished with
       status := "Published", error_count := 0,
       published_date_time := some 2 } : OutboxMessage).published_date_time =
      some envT2.now :=
  (mark_published_second_call envT2 envT1 dbOneEvent 7).1
    { evUnpublished with
      status := "Published", error_count := 0,
      published_date_time := some 2 } (by decide) rfl

/-! ## C5 -/

/-- C5 (code bug): `Outbox::insert` binds
`serde_json::to_string(payload).ok()`, so a payload whose serialization
fails does NOT make the insert return a `StorageError`: the INSERT is
executed with a NULL payload and the call succeeds.  Evaluated here at a
failing payload in a healthy environment: the serialization fails, yet
the result is `Ok` and a row with `payload = none` is written. -/
theorem insert_swallows_serialization_failure :
    RustSerialize.toJsonString FailingPayload.mk = (none : Option String) ∧
    Outbox.insert envAllOk dbEmpty "user_events" "user_added"
        FailingPayload.mk =
      .ok { persons := [],
            outbox := [{ id := 101, topic := "user_events",
                         event_name := "user_added", payload := none,
                         status := "Unpublished", created_date_time := 5,
                         published_date_time := none, error_count := 0,
                         error_message := none }] } := by
  decide

/-! ## C6 -/

/-- C6: deleting an id with no matching Person row returns `Ok(false)`
with the store completely unchanged (zero outbox events) — and the
transaction really is committed, not rolled back: a failing COMMIT
surfaces as an error on this same path. -/
theorem delete_missing_id_is_noop (env : Env) (db : Db) (id : Uuid)
    (hp : env.poolOk = true) (hb : env.beginOk = true)
    (he : env.entityOk = true)
    (habs : ∀ p ∈ db.persons, p.id ≠ id) :
    (env.commitOk = true →
      PersonService.delete_user env db id = ⟨.ok false, db⟩) ∧
    (env.commitOk = false →
      (PersonService.delete_user env db id).result =
        .error SvcError.transactionError) := by
  have hany : (db.persons.any fun p => p.id == id) = false := by
    rw [List.any_eq_false]
    intro p hmem
    simpa using habs p hmem
  have hfilter : db.persons.filter (fun p => !(p.id == id)) = db.persons := by
    rw [List.filter_eq_self]
    intro p hmem
    simpa using habs p hmem
  constructor
  · intro hc
    simp [PersonService.delete_user, PersonDb.delete, hp, hb, he, hc,
      hany, hfilter]
  · intro hc
    simp [PersonService.delete_user, PersonDb.delete, hp, hb, he, hc, hany]

/-- C6 witness: concrete instance — deleting absent id 99 from `dbAda`
returns `Ok(false)` and leaves the store untouched. -/
theorem delete_missing_id_is_noop_witness :
    PersonService.delete_user envAllOk dbAda 99 = ⟨.ok false, dbAda⟩ :=
  (delete_missing_id_is_noop envAllOk dbAda 99 rfl rfl rfl
      (by decide)).1 rfl

/-! ## C7 -/

/-- C7: `errored_event` leaves the person table and the outbox row count
unchanged, and row-for-row: a row whose id matches gets exactly
`error_count + 1` and `status = 'Error'` with every other field
(`payload`, `created_date_time`, `published_date_time`, ...) untouched,
while a row whose id differs is completely unchanged. -/
theorem mark_errored_increments_and_frames (db : Db) (id : Uuid) :
    (Outbox.errored_event db id).persons = db.persons ∧
    (Outbox.errored_event db id).outbox.length = db.outbox.length ∧
    List.Forall₂ (fun e e2 =>
        (e.id = id → e2 = { e with
                            status := "Error",
                            error_count := e.error_count + 1 }) ∧
        (e.id ≠ id → e2 = e))
      db.outbox (Outbox.errored_event db id).outbox := by
  refine ⟨rfl, by simp [Outbox.errored_event], ?_⟩
  show List.Forall₂ _ db.outbox (db.outbox.map _)
  rw [List.forall₂_map_right_iff, List.forall₂_same]
  intro e _
  by_cases h0 : e.id = id
  · simp [h0]
  · simp [h0]

/-- C7 witness: concrete instance at `dbOneEvent` and id 7. -/
theorem mark_errored_increments_and_frames_witness :
    (Outbox.errored_event dbOneEvent 7).outbox.length =
      dbOneEvent.outbox.length ∧
    List.Forall₂ (fun e e2 =>
        (e.id = 7 → e2 = { e with
                           status := "Error",
                           error_count := e.error_count + 1 }) ∧
        (e.id ≠ 7 → e2 = e))
      dbOneEvent.outbox (Outbox.errored_event dbOneEvent 7).outbox :=
  ⟨(mark_errored_increments_and_frames dbOneEvent 7).2.1,
   (mark_errored_increments_and_frames dbOneEvent 7).2.2⟩

/-! ## C8 -/

/-- C8: `list` returns rows ordered by creation time descending and
honours offset/limit; with distinct rows and no intervening writes,
page `(0, N)` followed by page `(N, N)` yields disjoint lists whose
ordered concatenation is exactly page `(0, 2N)`. -/
theorem list_pagination_deterministic (db : Db) (N : Nat)
    (hnd : db.persons.Nodup) :
    (∀ off lim, List.Sorted createdDesc (PersonDb.list db off lim) ∧
        (PersonDb.list db off lim).length ≤ lim) ∧
    PersonDb.list db 0 N ++ PersonDb.list db N N =
      PersonDb.list db 0 (2 * N) ∧
    List.Disjoint (PersonDb.list db 0 N) (PersonDb.list db N N) := by
  have hsorted : List.Sorted createdDesc
      (List.insertionSort createdDesc db.persons) :=
    List.sorted_insertionSort createdDesc db.persons
  have hnodup : (List.insertionSort createdDesc db.persons).Nodup :=
    ((List.perm_insertionSort createdDesc db.persons).symm).nodup hnd
  refine ⟨?_, ?_, ?_⟩
  · intro off lim
    exact ⟨List.Pairwise.sublist
        ((List.take_sublist _ _).trans (List.drop_sublist _ _)) hsorted,
      List.length_take_le _ _⟩
  · simp only [PersonDb.list, List.drop_zero]
    rw [two_mul, List.take_add]
  · simp only [PersonDb.list, List.drop_zero]
    intro a ha hb
    exact List.disjoint_take_drop hnodup le_rfl ha (List.mem_of_mem_take hb)

/-- C8 witness: concrete instance at a two-row store with N = 1. -/
theorem list_pagination_deterministic_witness :
    dbTwo.persons.Nodup ∧
    (PersonDb.list dbTwo 0 1 ++ PersonDb.list dbTwo 1 1 =
      PersonDb.list dbTwo 0 2) ∧
    List.Disjoint (PersonDb.list dbTwo 0 1) (PersonDb.list dbTwo 1 1) :=
  ⟨by decide,
   (list_pagination_deterministic dbTwo 1 (by decide)).2.1,
   (list_pagination_deterministic dbTwo 1 (by decide)).2.2⟩

/-! ## C9 -/

/-- C9 counterexample: in a run of the create handler on an empty store
with a fully healthy environment, both attempts of the creation path are
made with the SAME id 7 (`Uuid::new_v4` is called once, before the double
call), not a freshly minted id per attempt — so the invocation ends in
InternalServerError with exactly one row persisted. -/
theorem create_handler_same_id_counterexample :
    (createUserHandler envAllOk envAllOk 7 5 dbEmpty reqAda).attempts.map
      NewPersonRecord.id = [7, 7] ∧
    ¬ ((createUserHandler envAllOk envAllOk 7 5 dbEmpty
        reqAda).attempts.map NewPersonRecord.id).Nodup ∧
    (createUserHandler envAllOk envAllOk 7 5 dbEmpty reqAda).status =
      HttpStatus.internalServerError ∧
    (createUserHandler envAllOk envAllOk 7 5 dbEmpty reqAda).db.persons.map
      PersonRecord.id = [7] := by
  decide

/-- C9 (amended): the create handler mints the Person id once per caller
invocation and passes the same record to both attempts of its doubled
creation path; with a healthy environment and a fresh id, the first
attempt persists the person and the second fails on the duplicate id, so
the invocation answers InternalServerError while exactly one new row is
persisted.  Retries across separate invocations mint new ids, so create
retries are not automatically idempotent. -/
theorem create_handler_attempts_share_one_id (env1 env2 : Env)
    (freshId : Uuid) (now : Timestamp) (db : Db) (req : CreateUserRequest)
    (h1p : env1.poolOk = true) (h1b : env1.beginOk = true)
    (h1e : env1.entityOk = true) (h1o : env1.outboxOk = true)
    (h1c : env1.commitOk = true)
    (h2p : env2.poolOk = true) (h2b : env2.beginOk = true)
    (h2e : env2.entityOk = true)
    (hfresh : ∀ p ∈ db.persons, p.id ≠ freshId) :
    (createUserHandler env1 env2 freshId now db req).attempts =
      [buildNewPersonRecord freshId now req,
       buildNewPersonRecord freshId now req] ∧
    (createUserHandler env1 env2 freshId now db req).status =
      HttpStatus.internalServerError ∧
    (createUserHandler env1 env2 freshId now db req).db.persons =
      db.persons ++
        [{ id := freshId, first_name := req.first_name,
           middle_name := req.middle_name, last_name := req.last_name,
           suffix := req.suffix, created_date_time := env1.now,
           updated_date_time := none }] := by
  have hnotex : ¬ ∃ x ∈ db.persons, x.id = freshId := by
    rintro ⟨p, hm, hpe⟩
    exact hfresh p hm hpe
  have hex : ∃ x ∈ db.persons ++
      [({ id := freshId, first_name := req.first_name,
          middle_name := req.middle_name, last_name := req.last_name,
          suffix := req.suffix, created_date_time := env1.now,
          updated_date_time := none } : PersonRecord)], x.id = freshId :=
    ⟨{ id := freshId, first_name := req.first_name,
       middle_name := req.middle_name, last_name := req.last_name,
       suffix := req.suffix, created_date_time := env1.now,
       updated_date_time := none }, by simp, rfl⟩
  cases hr : env2.rollbackOk <;>
    simp [createUserHandler, PersonService.create_user, PersonDb.create,
      Outbox.insert, rollbackAndFail, buildNewPersonRecord,
      h1p, h1b, h1e, h1o, h1c, h2p, h2b, h2e, hnotex, hex, hr]

/-- C9 witness: concrete instance of the amended statement. -/
theorem create_handler_attempts_share_one_id_witness :
    (createUserHandler envAllOk envAllOk 7 5 dbEmpty reqAda).attempts =
      [buildNewPersonRecord 7 5 reqAda, buildNewPersonRecord 7 5 reqAda] ∧
    (createUserHandler envAllOk envAllOk 7 5 dbEmpty reqAda).status =
      HttpStatus.internalServerError :=
  ⟨(create_handler_attempts_share_one_id envAllOk envAllOk 7 5 dbEmpty
      reqAda rfl rfl rfl rfl rfl rfl rfl rfl (by decide)).1,
   (create_handler_attempts_share_one_id envAllOk envAllOk 7 5 dbEmpty
      reqAda rfl rfl rfl rfl rfl rfl rfl rfl (by decide)).2.1⟩

/-! ## C10 -/

/-- The error arms of the coordinator leave the store untouched. -/
theorem rollbackAndFail_db {α : Type} (env : Env) (db : Db) (e : SvcError) :
    (rollbackAndFail env db e : OpOutcome α).db = db := by
  unfold rollbackAndFail
  split <;> rfl

/-- A successful `Outbox::insert` only appends rows carrying the given
topic. -/
theorem insert_ok_mem_topic {T : Type} [RustSerialize T] {env : Env}
    {tx : Db} {topic event_name : String} {p : T} {tx2 : Db}
    (h : Outbox.insert env tx topic event_name p = .ok tx2) :
    ∀ e ∈ tx2.outbox, e ∈ tx.outbox ∨ e.topic = topic := by
  simp only [Outbox.insert] at h
  split at h
  · cases h
  · injection h with hh
    subst hh
    intro e he
    rcases List.mem_append.mp he with h2 | h2
    · exact Or.inl h2
    · simp only [List.mem_singleton] at h2
      subst h2
      exact Or.inr rfl

/-- A successful entity insert does not touch the outbox table. -/
theorem create_ok_outbox_eq {env : Env} {tx : Db} {user : NewPersonRecord}
    {r : PersonRecord} {tx1 : Db}
    (h : PersonDb.create env tx user = .ok (r, tx1)) :
    tx1.outbox = tx.outbox := by
  simp only [PersonDb.create] at h
  split at h
  · cases h
  · split at h
    · cases h
    · injection h with hh
      injection hh with h1 h2
      subst h2
      rfl

/-- A successful entity update does not touch the outbox table. -/
theorem update_ok_outbox_eq {env : Env} {tx : Db} {user : PersonRecord}
    {r : PersonRecord} {tx1 : Db}
    (h : PersonDb.update env tx user = .ok (r, tx1)) :
    tx1.outbox = tx.outbox := by
  simp only [PersonDb.update] at h
  split at h
  · cases h
  · split at h
    · cases h
    · injection h with hh
      injection hh with h1 h2
      subst h2
      rfl

/-- A successful entity delete does not touch the outbox table. -/
theorem delete_ok_outbox_eq {env : Env} {tx : Db} {id : Uuid}
    {b : Bool} {tx1 : Db}
    (h : PersonDb.delete env tx id = .ok (b, tx1)) :
    tx1.outbox = tx.outbox := by
  simp only [PersonDb.delete] at h
  split at h
  · cases h
  · injection h with hh
    injection hh with h1 h2
    subst h2
    rfl

/-- C10: every outbox row added by any of the three mutating operations
carries the fixed topic `"user_events"`: after any run, every row of the
outbox either predates the call or has that topic. -/
theorem all_enqueued_events_use_topic_user_events (env : Env) (db : Db) :
    (∀ user : NewPersonRecord,
      ∀ e ∈ (PersonService.create_user env db user).db.outbox,
        e ∈ db.outbox ∨ e.topic = "user_events") ∧
    (∀ user : PersonRecord,
      ∀ e ∈ (PersonService.update_user env db user).db.outbox,
        e ∈ db.outbox ∨ e.topic = "user_events") ∧
    (∀ id : Uuid,
      ∀ e ∈ (PersonService.delete_user env db id).db.outbox,
        e ∈ db.outbox ∨ e.topic = "user_events") := by
  refine ⟨?_, ?_, ?_⟩
  · intro user e he
    simp only [PersonService.create_user] at he
    split at he
    · exact Or.inl he
    · split at he
      · exact Or.inl he
      · split at he
        next e1 heq =>
          rw [rollbackAndFail_db] at he
          exact Or.inl he
        next created tx1 heq =>
          split at he
          next e2 heq2 =>
            rw [rollbackAndFail_db] at he
            exact Or.inl he
          next tx2 heq2 =>
            split at he
            · exact Or.inl he
            · rcases insert_ok_mem_topic heq2 e he with h | h
              · rw [create_ok_outbox_eq heq] at h
                exact Or.inl h
              · exact Or.inr h
  · intro user e he
    simp only [PersonService.update_user] at he
    split at he
    · exact Or.inl he
    · split at he
      · exact Or.inl he
      · split at he
        next e1 heq =>
          rw [rollbackAndFail_db] at he
          exact Or.inl he
        next updated tx1 heq =>
          split at he
          next e2 heq2 =>
            rw [rollbackAndFail_db] at he
            exact Or.inl he
          next tx2 heq2 =>
            split at he
            · exact Or.inl he
            · rcases insert_ok_mem_topic heq2 e he with h | h
              · rw [update_ok_outbox_eq heq] at h
                exact Or.inl h
              · exact Or.inr h
  · intro id e he
    simp only [PersonService.delete_user] at he
    split at he
    · exact Or.inl he
    · split at he
      · exact Or.inl he
      · split at he
        next e1 heq =>
          rw [rollbackAndFail_db] at he
          exact Or.inl he
        next deleted tx1 heq =>
          split at he
          · split at he
            next e2 heq2 =>
              rw [rollbackAndFail_db] at he
              exact Or.inl he
            next tx2 heq2 =>
              split at he
              · exact Or.inl he
              · rcases insert_ok_mem_topic heq2 e he with h | h
                · rw [delete_ok_outbox_eq heq] at h
                  exact Or.inl h
                · exact Or.inr h
          · split at he
            · exact Or.inl he
            · rw [delete_ok_outbox_eq heq] at he
              exact Or.inl he

/-- C10 witness: the single event enqueued by a concrete successful
create carries topic `"user_events"`. -/
theorem all_enqueued_events_use_topic_user_events_witness :
    ({ id := 101, topic := "user_events", event_name := "user_added",
       payload := some (personRecordToJson
         { id := 1, first_name := "Ada", middle_name := none,
           last_name := "Lovelace", suffix := none, created_date_time := 5,
           updated_date_time := none }),
       status := "Unpublished", created_date_time := 5,
       published_date_time := none, error_count := 0,
       error_message := none } : OutboxMessage) ∈ dbEmpty.outbox ∨
    ({ id := 101, topic := "user_events", event_name := "user_added",
       payload := some (personRecordToJson
         { id := 1, first_name := "Ada", middle_name := none,
           last_name := "Lovelace", suffix := none, created_date_time := 5,
           updated_date_time := none }),
       status := "Unpublished", created_date_time := 5,
       published_date_time := none, error_count := 0,
       error_message := none } : OutboxMessage).topic = "user_events" :=
  (all_enqueued_events_use_topic_user_events envAllOk dbEmpty).1
    newPersonAda _ (by decide)
